import Mathlib

set_option autoImplicit false
set_option linter.unusedVariables false
set_option maxRecDepth 4096

namespace Constellation

/- ### Byte strings

Go byte slices are modelled as lists of naturals (one entry per byte). -/
abbrev Bytes := List Nat

/- ### Key-value maps

Go maps from string keys, as used by the wrapped-DEK storage and the key
vault, are modelled as association lists where an insertion shadows older
entries (last write wins, as for a Go map assignment). -/

def lookupKV {β : Type} : List (String × β) → String → Option β
  | [], _ => none
  | (k, v) :: rest, key => if k = key then some v else lookupKV rest key

def insertKV {β : Type} (m : List (String × β)) (key : String) (v : β) : List (String × β) :=
  (key, v) :: m

theorem lookupKV_insertKV_same {β : Type} (m : List (String × β)) (key : String) (v : β) :
    lookupKV (insertKV m key v) key = some v := by
  simp [lookupKV, insertKV]

/- ## KMS coordinator (kms/kms/azure/azure.go)

`KMSClient.GetDEK` resolves the KEK from the vault, looks the wrapped DEK up
in storage, unwraps it when present, and otherwise generates a fresh DEK,
wraps it and persists it.  The vault (Azure Key Vault secrets, read by
`getKEK`) and the wrapped-DEK storage (`kms.Storage`) are both string-keyed
byte stores. -/

inductive KmsError where
  /-- `kms.ErrKEKUnknown`: the KEK secret was not found in the vault. -/
  | kekUnknown
  /-- unwrapping the stored DEK with the KEK failed. -/
  | unwrapFailed
  /-- `storage.Put` failed while persisting the freshly wrapped DEK. -/
  | putFailed
deriving DecidableEq, Repr

/-- Modelled from the spec: `kms/kms/util` (not under src/) provides the
KeyWrapCodec, an authenticated symmetric key-wrap of a DEK under a KEK.  We
model the ciphertext as the KEK prepended to the plaintext, which gives a
deterministic codec whose unwrap inverts wrap under the same KEK. -/
def WrapAES (plainDEK kek : Bytes) : Bytes := kek ++ plainDEK

/-- Modelled from the spec: inverse direction of the KeyWrapCodec.  Unwrap
succeeds exactly when the ciphertext carries the same KEK it is opened with,
mirroring the authentication tag check. -/
def UnwrapAES (encryptedDEK kek : Bytes) : Option Bytes :=
  if encryptedDEK.take kek.length = kek then some (encryptedDEK.drop kek.length) else none

theorem unwrapAES_wrapAES (plainDEK kek : Bytes) :
    UnwrapAES (WrapAES plainDEK kek) kek = some plainDEK := by
  simp [UnwrapAES, WrapAES, List.take_left, List.drop_left]

/-- State of the KMS client: the vault holding KEK secrets by `kekID`
(`getKEK` reads it) and the wrapped-DEK storage keyed by `keyID`. -/
structure KMSState where
  vault : List (String × Bytes)
  store : List (String × Bytes)
deriving DecidableEq, Repr

/-- `KMSClient.getKEK`: load a KEK from the vault; a missing secret is
`ErrKEKUnknown`. -/
def getKEK (s : KMSState) (kekID : String) : Option Bytes :=
  lookupKV s.vault kekID

/-- Result of a Go call returning `([]byte, error)`: the returned slice
(`none` for `nil`) together with the returned error (`none` for `nil`).  Go
returns both values; a caller by convention inspects the error first. -/
abbrev GoBytesResult := Option Bytes × Option KmsError

/-- `KMSClient.GetDEK`: the `freshDEK` argument stands for the output of
`util.GetRandomKey(dekSize)` (so theorems assume `freshDEK.length = dekSize`)
and `putOk` stands for the success of the backend `storage.Put` inside
`putDEK`.  Note the generation branch is `return newDEK, c.putDEK(...)`: the
generated DEK is returned in the value position together with the error of
the persist step. -/
def GetDEK (s : KMSState) (kekID keyID : String) (dekSize : Nat) (freshDEK : Bytes)
    (putOk : Bool) : GoBytesResult × KMSState :=
  match getKEK s kekID with
  | none => ((none, some .kekUnknown), s)
  | some kek =>
    match lookupKV s.store keyID with
    | some encryptedDEK =>
      match UnwrapAES encryptedDEK kek with
      | some dek => ((some dek, none), s)
      | none => ((none, some .unwrapFailed), s)
    | none =>
      let encryptedDEK := WrapAES freshDEK kek
      if putOk then
        ((some freshDEK, none), { s with store := insertKV s.store keyID encryptedDEK })
      else
        ((some freshDEK, some .putFailed), s)

/-- Run a sequence of `GetDEK` calls for one `kekID`, `keyID` and `dekSize`;
each call supplies its own RNG output and persist outcome. -/
def runGetDEKs (s : KMSState) (kekID keyID : String) (dekSize : Nat) :
    List (Bytes × Bool) → List GoBytesResult × KMSState
  | [] => ([], s)
  | (f, pk) :: rest =>
    let step := GetDEK s kekID keyID dekSize f pk
    let later := runGetDEKs step.2 kekID keyID dekSize rest
    (step.1 :: later.1, later.2)

theorem getDEK_unwrap_path (s : KMSState) (kekID keyID : String) (dekSize : Nat)
    (g kek dek : Bytes) (pk : Bool)
    (hkek : getKEK s kekID = some kek)
    (hstored : lookupKV s.store keyID = some (WrapAES dek kek)) :
    GetDEK s kekID keyID dekSize g pk = ((some dek, none), s) := by
  simp [GetDEK, hkek, hstored, unwrapAES_wrapAES]

theorem runGetDEKs_unwrap_path (s : KMSState) (kekID keyID : String) (dekSize : Nat)
    (kek dek : Bytes) (calls : List (Bytes × Bool))
    (hkek : getKEK s kekID = some kek)
    (hstored : lookupKV s.store keyID = some (WrapAES dek kek)) :
    runGetDEKs s kekID keyID dekSize calls =
      (List.replicate calls.length (some dek, none), s) := by
  induction calls with
  | nil => simp [runGetDEKs]
  | cons c rest ih =>
    obtain ⟨g, pk⟩ := c
    simp [runGetDEKs, getDEK_unwrap_path s kekID keyID dekSize g kek dek pk hkek hstored, ih,
      List.replicate_succ]

/-- Claim C1: for every kekID, keyID and size n, once a wrapped DEK has been
stored for keyID, every subsequent successful `GetDEK(kekID, keyID, n)` call
returns a byte-identical plaintext DEK of length n.  Formalised as: starting
from a state where `keyID` is unset and the KEK resolves, the first call
generates and returns the fresh DEK of length n and persists its wrapping;
thereafter every call in any sequence of further `GetDEK` calls (arbitrary
RNG outputs and persist outcomes) succeeds with exactly the same plaintext
and leaves the state unchanged. -/
theorem getDEK_idempotent_per_keyID (s : KMSState) (kekID keyID : String) (n : Nat)
    (f kek : Bytes) (calls : List (Bytes × Bool))
    (hkek : getKEK s kekID = some kek)
    (hunset : lookupKV s.store keyID = none)
    (hlen : f.length = n) :
    (GetDEK s kekID keyID n f true).1 = (some f, none) ∧
    f.length = n ∧
    runGetDEKs (GetDEK s kekID keyID n f true).2 kekID keyID n calls =
      (List.replicate calls.length (some f, none), (GetDEK s kekID keyID n f true).2) := by
  have hstate : (GetDEK s kekID keyID n f true).2 =
      { s with store := insertKV s.store keyID (WrapAES f kek) } := by
    simp [GetDEK, hkek, hunset]
  refine ⟨by simp [GetDEK, hkek, hunset], hlen, ?_⟩
  rw [hstate]
  exact runGetDEKs_unwrap_path _ kekID keyID n kek f calls hkek
    (lookupKV_insertKV_same s.store keyID (WrapAES f kek))

/-- Concrete instantiation of the C1 theorem: one fresh generation followed
by two further calls, all returning the identical 16-byte DEK. -/
theorem getDEK_idempotent_per_keyID_witness :
    (GetDEK ⟨[("kek1", List.replicate 32 7)], []⟩ "kek1" "disk-uuid" 16
        (List.replicate 16 3) true).1 = (some (List.replicate 16 3), none) ∧
    (List.replicate 16 3 : Bytes).length = 16 ∧
    runGetDEKs (GetDEK ⟨[("kek1", List.replicate 32 7)], []⟩ "kek1" "disk-uuid" 16
        (List.replicate 16 3) true).2 "kek1" "disk-uuid" 16
        [(List.replicate 16 9, true), (List.replicate 16 5, false)] =
      (List.replicate 2 (some (List.replicate 16 3), none),
        (GetDEK ⟨[("kek1", List.replicate 32 7)], []⟩ "kek1" "disk-uuid" 16
          (List.replicate 16 3) true).2) :=
  getDEK_idempotent_per_keyID ⟨[("kek1", List.replicate 32 7)], []⟩ "kek1" "disk-uuid" 16
    (List.replicate 16 3) (List.replicate 32 7)
    [(List.replicate 16 9, true), (List.replicate 16 5, false)]
    rfl rfl rfl

/- ### Persist failure (claim C6)

The generation branch of `GetDEK` reads `return newDEK, c.putDEK(ctx, keyID,
kek, newDEK)`: when the persist fails, the returned pair carries the
generated plaintext in the value position next to the non-nil error. -/

/-- Claim C6 counterexample: with the KEK present and the keyID unset, a
failing persist makes `GetDEK` fail (non-nil error) but the generated
plaintext DEK is still handed back in the value position of the return,
contradicting the claim that it is not handed back to the caller. -/
theorem getDEK_putFailure_counterexample :
    (GetDEK ⟨[("kek1", [7, 7, 7, 7])], []⟩ "kek1" "disk-uuid" 4 [3, 3, 3, 3] false).1.2 =
        some KmsError.putFailed ∧
    (GetDEK ⟨[("kek1", [7, 7, 7, 7])], []⟩ "kek1" "disk-uuid" 4 [3, 3, 3, 3] false).1.1 =
        some [3, 3, 3, 3] := by
  constructor <;> rfl

/-- Claim C6 (amended): if `GetDEK` generates a fresh DEK for an unset keyID
and persisting the wrapped DEK fails, the call fails (its error component is
non-nil) and nothing is persisted, but the generated plaintext DEK is
returned in the value position alongside the error; callers discard it only
by the Go convention of checking the error first. -/
theorem getDEK_putFailure_behavior (s : KMSState) (kekID keyID : String) (n : Nat)
    (f kek : Bytes)
    (hkek : getKEK s kekID = some kek)
    (hunset : lookupKV s.store keyID = none) :
    GetDEK s kekID keyID n f false = ((some f, some .putFailed), s) := by
  simp [GetDEK, hkek, hunset]

/-- Concrete instantiation of the amended C6 theorem. -/
theorem getDEK_putFailure_behavior_witness :
    GetDEK ⟨[("kekW", [9, 9])], [("other", [1])]⟩ "kekW" "keyW" 2 [4, 5] false =
      ((some [4, 5], some .putFailed), ⟨[("kekW", [9, 9])], [("other", [1])]⟩) :=
  getDEK_putFailure_behavior ⟨[("kekW", [9, 9])], [("other", [1])]⟩ "kekW" "keyW" 2
    [4, 5] [9, 9] rfl rfl

/- ### Concurrent first-time GetDEK calls (claim C2)

`GetDEK` performs two storage actions on the generation path: the
`storage.Get` lookup and the `storage.Put` of the wrapped fresh DEK.  No
lock is held between them (azure.go takes none), so each storage call is
one atomic action of a thread and two concurrent calls interleave.  The
in-memory map storage (`storage.NewMemMapStorage`, not under src/; modelled
from the spec, which describes the no-store backend as an in-memory map)
executes `Put` as a plain map assignment: it overwrites and cannot fail. -/

inductive DekPhase where
  /-- about to perform the `storage.Get` lookup. -/
  | start
  /-- observed `ErrDEKUnset`; about to wrap the fresh DEK and `storage.Put` it. -/
  | gotMiss
  /-- call returned with the recorded Go result. -/
  | done (res : GoBytesResult)
deriving DecidableEq, Repr

structure DekThread where
  fresh : Bytes
  phase : DekPhase
deriving DecidableEq, Repr

/-- One atomic storage action of a `GetDEK` call (KEK already resolved, as
in azure.go where `getKEK` precedes all storage access). -/
def stepDekThread (kek : Bytes) (keyID : String) (t : DekThread)
    (store : List (String × Bytes)) : DekThread × List (String × Bytes) :=
  match t.phase with
  | .start =>
    match lookupKV store keyID with
    | some encryptedDEK =>
      match UnwrapAES encryptedDEK kek with
      | some dek => ({ t with phase := .done (some dek, none) }, store)
      | none => ({ t with phase := .done (none, some .unwrapFailed) }, store)
    | none => ({ t with phase := .gotMiss }, store)
  | .gotMiss =>
    ({ t with phase := .done (some t.fresh, none) },
      insertKV store keyID (WrapAES t.fresh kek))
  | .done _ => (t, store)

/-- Interleave two `GetDEK` threads over the shared store: `true` schedules
thread A for one atomic step, `false` thread B. -/
def runDekSched (kek : Bytes) (keyID : String) :
    List Bool → DekThread → DekThread → List (String × Bytes) →
    DekThread × DekThread × List (String × Bytes)
  | [], tA, tB, store => (tA, tB, store)
  | true :: rest, tA, tB, store =>
    let s := stepDekThread kek keyID tA store
    runDekSched kek keyID rest s.1 tB s.2
  | false :: rest, tA, tB, store =>
    let s := stepDekThread kek keyID tB store
    runDekSched kek keyID rest tA s.1 s.2

/-- Sanity: a thread scheduled alone from an unset store reproduces exactly
the result and final state of the sequential `GetDEK` generation path, so
the thread decomposition refines `GetDEK`. -/
theorem stepDekThread_refines_getDEK (s : KMSState) (kekID keyID : String) (n : Nat)
    (f kek : Bytes) (tB : DekThread)
    (hkek : getKEK s kekID = some kek)
    (hunset : lookupKV s.store keyID = none) :
    (runDekSched kek keyID [true, true] ⟨f, .start⟩ tB s.store).1.phase =
        .done (GetDEK s kekID keyID n f true).1 ∧
    (⟨s.vault, (runDekSched kek keyID [true, true] ⟨f, .start⟩ tB s.store).2.2⟩ : KMSState) =
        (GetDEK s kekID keyID n f true).2 := by
  constructor <;> simp [runDekSched, stepDekThread, GetDEK, hkek, hunset]

/-- Claim C2 counterexample: the interleaving in which both concurrent
first-time callers perform their `storage.Get` before either performs its
`storage.Put` makes both callers succeed with their own generated DEK: the
two callers observe two different plaintexts, the persist overwrote rather
than behaving as create-if-absent, and no loser re-fetched the stored
value. -/
theorem getDEK_race_counterexample :
    (runDekSched [7, 7, 7, 7] "disk-uuid" [true, false, true, false]
        ⟨[0, 0, 0, 0], .start⟩ ⟨[1, 1, 1, 1], .start⟩ []).1.phase =
        .done (some [0, 0, 0, 0], none) ∧
    (runDekSched [7, 7, 7, 7] "disk-uuid" [true, false, true, false]
        ⟨[0, 0, 0, 0], .start⟩ ⟨[1, 1, 1, 1], .start⟩ []).2.1.phase =
        .done (some [1, 1, 1, 1], none) ∧
    ([0, 0, 0, 0] : Bytes) ≠ [1, 1, 1, 1] := by
  refine ⟨rfl, rfl, by decide⟩

/-- Claim C2 (amended): the generate-then-persist step of `GetDEK` does
race: the persist is a plain overwrite (not create-if-absent) and there is
no re-fetch, so in the interleaving where both first-time callers miss
before either persists, both callers succeed, each with its own distinct
generated plaintext; afterwards the store holds the last writer's wrapped
DEK and every subsequent `GetDEK` call returns the last writer's
plaintext. -/
theorem getDEK_race_behavior (vault store : List (String × Bytes))
    (kekID keyID : String) (n : Nat) (fA fB g kek : Bytes) (pk : Bool)
    (hkek : lookupKV vault kekID = some kek)
    (hunset : lookupKV store keyID = none)
    (hne : fA ≠ fB) :
    (runDekSched kek keyID [true, false, true, false]
        ⟨fA, .start⟩ ⟨fB, .start⟩ store).1.phase = .done (some fA, none) ∧
    (runDekSched kek keyID [true, false, true, false]
        ⟨fA, .start⟩ ⟨fB, .start⟩ store).2.1.phase = .done (some fB, none) ∧
    (some fA, (none : Option KmsError)) ≠ (some fB, none) ∧
    lookupKV (runDekSched kek keyID [true, false, true, false]
        ⟨fA, .start⟩ ⟨fB, .start⟩ store).2.2 keyID = some (WrapAES fB kek) ∧
    (GetDEK ⟨vault, (runDekSched kek keyID [true, false, true, false]
        ⟨fA, .start⟩ ⟨fB, .start⟩ store).2.2⟩ kekID keyID n g pk).1 = (some fB, none) := by
  have hrun : runDekSched kek keyID [true, false, true, false]
      ⟨fA, .start⟩ ⟨fB, .start⟩ store =
      (⟨fA, .done (some fA, none)⟩, ⟨fB, .done (some fB, none)⟩,
        insertKV (insertKV store keyID (WrapAES fA kek)) keyID (WrapAES fB kek)) := by
    simp [runDekSched, stepDekThread, hunset, lookupKV, insertKV]
  refine ⟨by rw [hrun], by rw [hrun], by simp [hne], ?_, ?_⟩
  · rw [hrun]
    exact lookupKV_insertKV_same _ keyID _
  · rw [hrun]
    exact congrArg Prod.fst
      (getDEK_unwrap_path ⟨vault, insertKV (insertKV store keyID (WrapAES fA kek)) keyID
          (WrapAES fB kek)⟩ kekID keyID n g kek fB pk hkek
        (lookupKV_insertKV_same _ keyID _))

/-- Concrete instantiation of the amended C2 theorem. -/
theorem getDEK_race_behavior_witness :
    (runDekSched [7, 7] "keyR" [true, false, true, false]
        ⟨[0, 0], .start⟩ ⟨[1, 1], .start⟩ []).1.phase = .done (some [0, 0], none) ∧
    (runDekSched [7, 7] "keyR" [true, false, true, false]
        ⟨[0, 0], .start⟩ ⟨[1, 1], .start⟩ []).2.1.phase = .done (some [1, 1], none) ∧
    (some [0, 0], (none : Option KmsError)) ≠ (some [1, 1], none) ∧
    lookupKV (runDekSched [7, 7] "keyR" [true, false, true, false]
        ⟨[0, 0], .start⟩ ⟨[1, 1], .start⟩ []).2.2 "keyR" = some (WrapAES [1, 1] [7, 7]) ∧
    (GetDEK ⟨[("kekR", [7, 7])], (runDekSched [7, 7] "keyR" [true, false, true, false]
        ⟨[0, 0], .start⟩ ⟨[1, 1], .start⟩ []).2.2⟩ "kekR" "keyR" 2 [5, 5] true).1 =
      (some [1, 1], none) :=
  getDEK_race_behavior [("kekR", [7, 7])] [] "kekR" "keyR" 2 [0, 0] [1, 1] [5, 5] [7, 7]
    true rfl rfl (by decide)

/- ## Key Release Waiter (state/keyservice/keyservice.go)

`KeyAPI` guards a single key slot with a mutex and signals arrival through
the `keyReceived` channel of capacity 1.  `PushStateDiskKey` runs under the
mutex, so pushes serialize; we model a serialized sequence of pushes.  The
channel is modelled by the number of queued tokens; a send onto a full
capacity-1 buffer would block forever while holding the mutex, which the
model records as the `blocked` outcome. -/

/-- `config.RNGLengthDefault`: expected state-disk key length in bytes.  The
internal config package is not under src/; the 32-byte value is pinned by
the keyservice tests, which accept a 32-byte key and reject a 16-byte
one. -/
def RNGLengthDefault : Nat := 32

structure KeyAPIState where
  key : Bytes
  /-- tokens queued in the `keyReceived` channel (capacity 1). -/
  keyReceivedBuf : Nat
deriving DecidableEq, Repr

/-- State produced by `keyservice.New`: no key, empty channel. -/
def initialKeyAPI : KeyAPIState := { key := [], keyReceivedBuf := 0 }

inductive PushResult where
  | ok
  /-- gRPC `FailedPrecondition`: node already received a passphrase. -/
  | failedPrecondition
  /-- gRPC `InvalidArgument`: received invalid passphrase length. -/
  | invalidArgument
  /-- the channel send found the capacity-1 buffer full and would block
  forever while holding the mutex (a deadlock). -/
  | blocked
deriving DecidableEq, Repr

/-- `KeyAPI.PushStateDiskKey`: reject when a key is already set, reject a
key of the wrong length, otherwise store the key and send on the
`keyReceived` channel. -/
def PushStateDiskKey (a : KeyAPIState) (stateDiskKey : Bytes) : PushResult × KeyAPIState :=
  if a.key.length ≠ 0 then (.failedPrecondition, a)
  else if stateDiskKey.length ≠ RNGLengthDefault then (.invalidArgument, a)
  else if a.keyReceivedBuf < 1 then
    (.ok, { key := stateDiskKey, keyReceivedBuf := a.keyReceivedBuf + 1 })
  else
    (.blocked, { a with key := stateDiskKey })

/-- Serialized sequence of `PushStateDiskKey` calls. -/
def runPushes (a : KeyAPIState) : List Bytes → KeyAPIState
  | [] => a
  | k :: rest => runPushes (PushStateDiskKey a k).2 rest

/-- Invariant maintained by pushes: an empty key slot means an empty
channel, and the channel never holds more than one token. -/
def KeyInv (a : KeyAPIState) : Prop :=
  (a.key = [] → a.keyReceivedBuf = 0) ∧ a.keyReceivedBuf ≤ 1

theorem keyInv_push (a : KeyAPIState) (k : Bytes) (h : KeyInv a) :
    KeyInv (PushStateDiskKey a k).2 := by
  obtain ⟨h1, h2⟩ := h
  by_cases hk : a.key.length ≠ 0
  · simp only [PushStateDiskKey, if_pos hk]
    exact ⟨h1, h2⟩
  · by_cases hlen : k.length ≠ RNGLengthDefault
    · simp only [PushStateDiskKey, if_neg hk, if_pos hlen]
      exact ⟨h1, h2⟩
    · have hknil : k ≠ [] := by
        intro hnil
        rw [hnil] at hlen
        simp [RNGLengthDefault] at hlen
      by_cases hbuf : a.keyReceivedBuf < 1
      · simp only [PushStateDiskKey, if_neg hk, if_neg hlen, if_pos hbuf]
        refine ⟨fun hkey => absurd hkey hknil, ?_⟩
        show a.keyReceivedBuf + 1 ≤ 1
        omega
      · simp only [PushStateDiskKey, if_neg hk, if_neg hlen, if_neg hbuf]
        exact ⟨fun hkey => absurd hkey hknil, h2⟩

theorem keyInv_runPushes (ks : List Bytes) (a : KeyAPIState) (h : KeyInv a) :
    KeyInv (runPushes a ks) := by
  induction ks generalizing a with
  | nil => exact h
  | cons k rest ih => exact ih _ (keyInv_push a k h)

/-- Claim C5: `PushStateDiskKey` accepts a key exactly once.  In any state
reachable by a sequence of pushes from the initial state: a push while a key
is stored returns the precondition-failed error and changes nothing; a push
of a key whose length is not the expected 32 bytes returns the
invalid-argument error and changes nothing; otherwise the key is stored and
the capacity-1 `keyReceived` channel is signalled, and the signal can never
find the buffer full, so no push ever blocks (no deadlock on a second
signal attempt). -/
theorem pushStateDiskKey_accepts_once (ks : List Bytes) (k : Bytes) :
    ((runPushes initialKeyAPI ks).key ≠ [] →
      PushStateDiskKey (runPushes initialKeyAPI ks) k =
        (.failedPrecondition, runPushes initialKeyAPI ks)) ∧
    ((runPushes initialKeyAPI ks).key = [] → k.length ≠ 32 →
      PushStateDiskKey (runPushes initialKeyAPI ks) k =
        (.invalidArgument, runPushes initialKeyAPI ks)) ∧
    ((runPushes initialKeyAPI ks).key = [] → k.length = 32 →
      PushStateDiskKey (runPushes initialKeyAPI ks) k =
        (.ok, { key := k, keyReceivedBuf := 1 })) ∧
    (PushStateDiskKey (runPushes initialKeyAPI ks) k).1 ≠ .blocked := by
  have hinv : KeyInv (runPushes initialKeyAPI ks) :=
    keyInv_runPushes ks initialKeyAPI ⟨fun _ => rfl, by simp [initialKeyAPI]⟩
  set a := runPushes initialKeyAPI ks with ha
  obtain ⟨h1, h2⟩ := hinv
  refine ⟨?_, ?_, ?_, ?_⟩
  · intro hkey
    have : a.key.length ≠ 0 := by simpa using hkey
    simp [PushStateDiskKey, this]
  · intro hkey hlen
    have hz : a.key.length = 0 := by simp [hkey]
    simp [PushStateDiskKey, hz, RNGLengthDefault, hlen]
  · intro hkey hlen
    have hz : a.key.length = 0 := by simp [hkey]
    have hbuf : a.keyReceivedBuf = 0 := h1 hkey
    simp [PushStateDiskKey, hz, RNGLengthDefault, hlen, hbuf]
  · by_cases hkey : a.key = []
    · have hz : a.key.length = 0 := by simp [hkey]
      have hbuf : a.keyReceivedBuf = 0 := h1 hkey
      by_cases hlen : k.length = 32
      · simp [PushStateDiskKey, hz, RNGLengthDefault, hlen, hbuf]
      · simp [PushStateDiskKey, hz, RNGLengthDefault, hlen]
    · have : a.key.length ≠ 0 := by simpa using hkey
      simp [PushStateDiskKey, this]

/-- Concrete instantiation of the C5 theorem: an over-long push is rejected
without state change, a first well-formed push is accepted and signals the
channel, and a second well-formed push after a success is rejected with the
precondition error; no push blocks. -/
theorem pushStateDiskKey_accepts_once_witness :
    PushStateDiskKey (runPushes initialKeyAPI []) (List.replicate 16 1) =
      (.invalidArgument, runPushes initialKeyAPI []) ∧
    PushStateDiskKey (runPushes initialKeyAPI []) (List.replicate 32 1) =
      (.ok, { key := List.replicate 32 1, keyReceivedBuf := 1 }) ∧
    PushStateDiskKey (runPushes initialKeyAPI [List.replicate 32 1]) (List.replicate 32 2) =
      (.failedPrecondition, runPushes initialKeyAPI [List.replicate 32 1]) ∧
    (PushStateDiskKey (runPushes initialKeyAPI [List.replicate 32 1])
        (List.replicate 32 2)).1 ≠ .blocked :=
  ⟨(pushStateDiskKey_accepts_once [] (List.replicate 16 1)).2.1 rfl (by decide),
    (pushStateDiskKey_accepts_once [] (List.replicate 32 1)).2.2.1 rfl (by decide),
    (pushStateDiskKey_accepts_once [List.replicate 32 1] (List.replicate 32 2)).1 (by decide),
    (pushStateDiskKey_accepts_once [List.replicate 32 1] (List.replicate 32 2)).2.2.2⟩

/- ### WaitForDecryptionKey (claim C10) -/

inductive WaitEvent where
  /-- `server.Serve` was launched on the push listener. -/
  | serverStarted
  /-- `requestKeyLoop` was entered. -/
  | requestLoopStarted
deriving DecidableEq, Repr

/-- `KeyAPI.WaitForDecryptionKey`: guard against an empty disk UUID, then
set up TLS and the listener, serve the push RPC while `requestKeyLoop`
broadcasts and waits for the `keyReceived` signal, and return the stored
key.  `pushes` are the keys pushed while the server is up (broadcast sends
are best-effort and do not touch the key slot); the result is `none` when
the wait would still block because no push succeeded. -/
def WaitForDecryptionKey (a : KeyAPIState) (uuid : String) (tlsOk listenOk : Bool)
    (pushes : List Bytes) : Option (Except String Bytes) × KeyAPIState × List WaitEvent :=
  if uuid = "" then (some (.error "received no disk UUID"), a, [])
  else if ¬tlsOk then (some (.error "creating server TLS config failed"), a, [])
  else if ¬listenOk then (some (.error "listen failed"), a, [])
  else
    let afterPushes := runPushes a pushes
    if 1 ≤ afterPushes.keyReceivedBuf then
      (some (.ok afterPushes.key),
        { afterPushes with keyReceivedBuf := afterPushes.keyReceivedBuf - 1 },
        [.serverStarted, .requestLoopStarted])
    else
      (none, afterPushes, [.serverStarted, .requestLoopStarted])

/-- Claim C10: `WaitForDecryptionKey` called with an empty disk UUID returns
an error immediately: the push-RPC server is never started, the requester
loop is never entered (empty event list) and the stored key slot is
unchanged. -/
theorem waitForDecryptionKey_empty_uuid (a : KeyAPIState) (tlsOk listenOk : Bool)
    (pushes : List Bytes) :
    WaitForDecryptionKey a "" tlsOk listenOk pushes =
      (some (.error "received no disk UUID"), a, []) := by
  simp [WaitForDecryptionKey]

/- ## NodeLock (claim C4) -/

/-- Modelled from the spec: `bootstrapper/internal/nodelock` is not under
src/ (only its caller in the join client tests is).  The spec describes
NodeLock as a single-use process-wide gate with states Unlocked → Locked
(terminal, never reset) and directs modelling `TryLockOnce` as an atomic
compare-and-set on an explicit single-assignment state cell. -/
inductive LockState where
  | unlocked
  | locked
deriving DecidableEq, Repr

/-- `NodeLock.TryLockOnce` as one atomic compare-and-set step: it reports
success exactly when it finds the cell unlocked, and the cell stays locked
forever after. -/
def tryLockOnce : LockState → Bool × LockState
  | .unlocked => (true, .locked)
  | .locked => (false, .locked)

/-- Results and final state of `n` TryLockOnce calls, in the order in which
the atomic compare-and-set serializes them; concurrent callers serialize
through that atomic step, so every concurrent execution is one such
order. -/
def runTryLocks : LockState → Nat → List Bool × LockState
  | st, 0 => ([], st)
  | st, n + 1 =>
    let step := tryLockOnce st
    let rest := runTryLocks step.2 n
    (step.1 :: rest.1, rest.2)

theorem runTryLocks_locked (n : Nat) :
    runTryLocks .locked n = (List.replicate n false, .locked) := by
  induction n with
  | zero => rfl
  | succ n ih => simp [runTryLocks, tryLockOnce, ih, List.replicate_succ]

/-- Claim C4: across any number `n ≥ 1` of `TryLockOnce` calls in one
process lifetime, in any serialization order of concurrent callers, the
first call returns true and every other call returns false, so exactly one
call returns true; the lock ends (and stays) locked, and from the locked
state any further `m` calls all return false — the lock is never reset. -/
theorem tryLockOnce_exactly_once (n m : Nat) (h : 0 < n) :
    (runTryLocks .unlocked n).1 = true :: List.replicate (n - 1) false ∧
    (runTryLocks .unlocked n).1.count true = 1 ∧
    (runTryLocks .unlocked n).2 = .locked ∧
    (runTryLocks .locked m).1.count true = 0 := by
  obtain ⟨k, rfl⟩ : ∃ k, n = k + 1 := ⟨n - 1, by omega⟩
  have hstep : runTryLocks .unlocked (k + 1) = (true :: List.replicate k false, .locked) := by
    simp [runTryLocks, tryLockOnce, runTryLocks_locked]
  refine ⟨by simp [hstep], by simp [hstep, List.count_replicate], by simp [hstep], ?_⟩
  simp [runTryLocks_locked, List.count_replicate]

/-- Concrete instantiation of the C4 theorem: three calls from unlocked and
two more from locked. -/
theorem tryLockOnce_exactly_once_witness :
    (runTryLocks .unlocked 3).1 = true :: List.replicate 2 false ∧
    (runTryLocks .unlocked 3).1.count true = 1 ∧
    (runTryLocks .unlocked 3).2 = .locked ∧
    (runTryLocks .locked 2).1.count true = 0 :=
  tryLockOnce_exactly_once 3 2 (by decide)

/- ## CryptDevice Mapper (mount/cryptmapper; claims C3, C7)

`mount/cryptmapper/cryptmapper.go` is not under src/; only its tests are.
The model below follows the spec section on the CryptDevice Mapper and is
pinned by the tests: `testDEK` is 64 bytes and succeeds in plain mode, the
integrity cases append `testDEK[:32]` for 96 bytes, a foreign filesystem
signature with failing `Load` is refused, and with integrity a temporary
activation, wipe and deactivation happen before the final activation. -/

def isErr {ε α : Type} : Except ε α → Bool
  | .error _ => true
  | .ok _ => false

/-- Modelled from the spec: key material required in plain mode. -/
def keySizeCrypt : Nat := 64

/-- Modelled from the spec and tests: key material required with integrity
protection — the 64-byte confidentiality key plus a 32-byte integrity
key. -/
def keySizeIntegrity : Nat := 96

/-- Stable path of the mapped device: the fixed device-mapper directory
plus the volume ID (`cryptPrefix + volumeID` in the tests). -/
def devMapperPath (volumeID : String) : String := "/dev/mapper/" ++ volumeID

/-- Outcome flags of the cryptsetup operations, exactly the stub of the
tests: a flag per operation tells whether that operation fails. -/
structure CryptDevice where
  initErr : Bool
  loadErr : Bool
  formatErr : Bool
  activateErr : Bool
  deactivateErr : Bool
  wipeErr : Bool
deriving DecidableEq, Repr

/-- Device operations attempted by `openCryptDevice`, in order. -/
inductive DevAction where
  | init
  | load
  | format
  | wipeActivate
  | wipe
  | wipeDeactivate
  | activate
deriving DecidableEq, Repr

/-- Modelled from the spec: `openCryptDevice` (mount/cryptmapper, not under
src/).  It checks the key length for the configured mode before any device
I/O, initializes the device context, tries to load existing crypt metadata,
and on a load failure probes the disk via `diskInfo`: a foreign filesystem
signature is refused rather than reformatted.  Only a device with neither
crypt metadata nor a signature is formatted; with integrity a temporary
activation, a zero-fill wipe pass and a deactivation precede the final
activation.  The result carries the trace of device operations
attempted. -/
def openCryptDevice (d : CryptDevice) (source volumeID : String) (dek : Bytes)
    (integrity : Bool) (diskInfo : Except Unit String) :
    Except String String × List DevAction :=
  if dek.length ≠ (if integrity then keySizeIntegrity else keySizeCrypt) then
    (.error "invalid key size", [])
  else if d.initErr then (.error "initializing crypt device", [.init])
  else if d.loadErr = false then
    if d.activateErr then (.error "activating crypt device", [.init, .load, .activate])
    else (.ok (devMapperPath volumeID), [.init, .load, .activate])
  else
    match diskInfo with
    | .error _ => (.error "getting disk format", [.init, .load])
    | .ok fs =>
      if fs ≠ "" then (.error "disk is already formatted", [.init, .load])
      else if d.formatErr then (.error "formatting crypt device", [.init, .load, .format])
      else if integrity then
        if d.activateErr then
          (.error "trying to activate temporary dm-crypt volume",
            [.init, .load, .format, .wipeActivate])
        else if d.wipeErr then
          (.error "wiping crypt device", [.init, .load, .format, .wipeActivate, .wipe])
        else if d.deactivateErr then
          (.error "deactivating temporary volume",
            [.init, .load, .format, .wipeActivate, .wipe, .wipeDeactivate])
        else
          (.ok (devMapperPath volumeID),
            [.init, .load, .format, .wipeActivate, .wipe, .wipeDeactivate, .activate])
      else if d.activateErr then (.error "activating crypt device", [.init, .load, .format, .activate])
      else (.ok (devMapperPath volumeID), [.init, .load, .format, .activate])

/-- Claim C3: `Open` never invokes the format routine on a device that
already carries crypt metadata (Load succeeds), and `Open` on a device that
carries a foreign filesystem signature and no crypt metadata returns an
error without formatting, wiping or activating — the device is not
mutated. -/
theorem openCryptDevice_never_reformats (d : CryptDevice) (source volumeID : String)
    (dek : Bytes) (integrity : Bool) (diskInfo : Except Unit String) (fs : String) :
    (d.loadErr = false →
      DevAction.format ∉ (openCryptDevice d source volumeID dek integrity diskInfo).2) ∧
    (d.loadErr = true → diskInfo = .ok fs → fs ≠ "" →
      isErr (openCryptDevice d source volumeID dek integrity diskInfo).1 = true ∧
      DevAction.format ∉ (openCryptDevice d source volumeID dek integrity diskInfo).2 ∧
      DevAction.wipe ∉ (openCryptDevice d source volumeID dek integrity diskInfo).2 ∧
      DevAction.activate ∉ (openCryptDevice d source volumeID dek integrity diskInfo).2) := by
  constructor
  · intro hload
    by_cases hlen : dek.length ≠ (if integrity then keySizeIntegrity else keySizeCrypt)
    · simp [openCryptDevice, hlen]
    · by_cases hinit : d.initErr
      · simp [openCryptDevice, hlen, hinit]
      · by_cases hact : d.activateErr <;>
          simp [openCryptDevice, hlen, hinit, hload, hact]
  · intro hload hdisk hfs
    by_cases hlen : dek.length ≠ (if integrity then keySizeIntegrity else keySizeCrypt)
    · simp [openCryptDevice, hlen, isErr]
    · by_cases hinit : d.initErr
      · simp [openCryptDevice, hlen, hinit, isErr]
      · simp [openCryptDevice, hlen, hinit, hload, hdisk, hfs, isErr]

/-- Concrete instantiation of the C3 theorem: a device whose crypt metadata
loads is never formatted, and a device with an ext4 signature and no crypt
metadata is refused without format, wipe or activation. -/
theorem openCryptDevice_never_reformats_witness :
    DevAction.format ∉ (openCryptDevice ⟨false, false, false, false, false, false⟩
      "/dev/some-device" "volume0" (List.replicate 64 170) false (.ok "")).2 ∧
    (isErr (openCryptDevice ⟨false, true, false, false, false, false⟩ "/dev/some-device"
        "volume0" (List.replicate 64 170) false (.ok "ext4")).1 = true ∧
      DevAction.format ∉ (openCryptDevice ⟨false, true, false, false, false, false⟩
        "/dev/some-device" "volume0" (List.replicate 64 170) false (.ok "ext4")).2 ∧
      DevAction.wipe ∉ (openCryptDevice ⟨false, true, false, false, false, false⟩
        "/dev/some-device" "volume0" (List.replicate 64 170) false (.ok "ext4")).2 ∧
      DevAction.activate ∉ (openCryptDevice ⟨false, true, false, false, false, false⟩
        "/dev/some-device" "volume0" (List.replicate 64 170) false (.ok "ext4")).2) :=
  ⟨(openCryptDevice_never_reformats ⟨false, false, false, false, false, false⟩
      "/dev/some-device" "volume0" (List.replicate 64 170) false (.ok "") "").1 rfl,
    (openCryptDevice_never_reformats ⟨false, true, false, false, false, false⟩
      "/dev/some-device" "volume0" (List.replicate 64 170) false (.ok "ext4") "ext4").2
      rfl rfl (by decide)⟩

/-- Claim C7 counterexample: with integrity enabled, key material of twice
the 64-byte base size (128 bytes) is rejected, while 96 bytes (the 64-byte
confidentiality key plus the 32-byte integrity key) succeeds; the plain
mode pins the base size at 64 bytes. -/
theorem openCryptDevice_integrity_double_counterexample :
    isErr (openCryptDevice ⟨false, true, false, false, false, false⟩ "/dev/some-device"
        "volume0" (List.replicate 128 0) true (.ok "")).1 = true ∧
    (openCryptDevice ⟨false, true, false, false, false, false⟩ "/dev/some-device" "volume0"
        (List.replicate 96 0) true (.ok "")).1 = .ok (devMapperPath "volume0") ∧
    (openCryptDevice ⟨false, true, false, false, false, false⟩ "/dev/some-device" "volume0"
        (List.replicate 64 0) false (.ok "")).1 = .ok (devMapperPath "volume0") := by
  exact ⟨rfl, rfl, rfl⟩

/-- Claim C7 (amended): `Open` with integrity protection enabled requires
key material of exactly `baseKeySize + 32` bytes — 96 when the base
(plain-mode) size is 64: a 64-byte confidentiality key plus a 32-byte
integrity key.  Key material of any other length is rejected before any
device operation (empty trace), and on the fresh-format path the zero-fill
wipe pass runs before the final activation. -/
theorem openCryptDevice_integrity_key_size (d : CryptDevice) (source volumeID : String)
    (dek : Bytes) (diskInfo : Except Unit String) :
    (dek.length ≠ keySizeCrypt + 32 →
      openCryptDevice d source volumeID dek true diskInfo = (.error "invalid key size", [])) ∧
    (dek.length ≠ keySizeCrypt →
      openCryptDevice d source volumeID dek false diskInfo = (.error "invalid key size", [])) ∧
    (dek.length = keySizeCrypt + 32 →
      openCryptDevice ⟨false, true, false, false, false, false⟩ source volumeID dek true
          (.ok "") =
        (.ok (devMapperPath volumeID),
          [.init, .load, .format, .wipeActivate, .wipe, .wipeDeactivate, .activate])) ∧
    ([DevAction.init, .load, .format, .wipeActivate, .wipe, .wipeDeactivate,
        .activate].indexOf DevAction.wipe <
      [DevAction.init, .load, .format, .wipeActivate, .wipe, .wipeDeactivate,
        .activate].indexOf DevAction.activate) := by
  refine ⟨?_, ?_, ?_, by decide⟩
  · intro hlen
    have : dek.length ≠ keySizeIntegrity := by
      simpa [keySizeIntegrity, keySizeCrypt] using hlen
    simp [openCryptDevice, this]
  · intro hlen
    simp [openCryptDevice, hlen]
  · intro hlen
    have : dek.length = keySizeIntegrity := by
      simpa [keySizeIntegrity, keySizeCrypt] using hlen
    simp [openCryptDevice, this]

/-- Concrete instantiation of the amended C7 theorem. -/
theorem openCryptDevice_integrity_key_size_witness :
    openCryptDevice ⟨false, true, false, false, false, false⟩ "/dev/some-device" "volume0"
        (List.replicate 100 0) true (.ok "") = (.error "invalid key size", []) ∧
    openCryptDevice ⟨false, true, false, false, false, false⟩ "/dev/some-device" "volume0"
        (List.replicate 100 0) false (.ok "") = (.error "invalid key size", []) ∧
    openCryptDevice ⟨false, true, false, false, false, false⟩ "/dev/some-device" "volume0"
        (List.replicate 96 0) true (.ok "") =
      (.ok (devMapperPath "volume0"),
        [.init, .load, .format, .wipeActivate, .wipe, .wipeDeactivate, .activate]) :=
  ⟨(openCryptDevice_integrity_key_size ⟨false, true, false, false, false, false⟩
      "/dev/some-device" "volume0" (List.replicate 100 0) (.ok "")).1 (by decide),
    (openCryptDevice_integrity_key_size ⟨false, true, false, false, false, false⟩
      "/dev/some-device" "volume0" (List.replicate 100 0) (.ok "")).2.1 (by decide),
    (openCryptDevice_integrity_key_size ⟨false, true, false, false, false, false⟩
      "/dev/some-device" "volume0" (List.replicate 96 0) (.ok "")).2.2.1 (by decide)⟩

/- ## Join Ticket Issuer (joinservice/server; claim C8) -/

structure JoinToken where
  apiServerEndpoint : String
  caCertHash : String
  token : String
deriving DecidableEq, Repr

structure JoinTicket where
  stateDiskKey : Bytes
  ownerID : Bytes
  clusterID : Bytes
  kubeletCert : Bytes
  apiServerEndpoint : String
  caCertHash : String
  token : String
  controlPlaneFiles : List (String × Bytes)
deriving DecidableEq, Repr

/-- Outcomes of the collaborator calls `IssueJoinTicket` makes, in the
order the spec prescribes: KMS data key, persisted owner/cluster identity
record, bootstrap token, kubelet certificate, control-plane certificate
material. -/
structure JoinDeps where
  dataKey : Except String Bytes
  idFile : Except String (Bytes × Bytes)
  joinToken : Except String JoinToken
  kubeletCert : Except String Bytes
  controlPlaneFiles : Except String (List (String × Bytes))
deriving Repr

/-- Modelled from the spec: `IssueJoinTicket` (joinservice/server, not
under src/; only its tests are).  Steps short-circuit on the first failure:
fetch the state-disk key from the KMS keyed by the disk UUID, load the
identity record, obtain the bootstrap token, issue the kubelet certificate,
and only for a control-plane request additionally fetch the control-plane
certificate material, whose failure is fatal to the call; for a worker
request that fetch is skipped entirely. -/
def IssueJoinTicket (isControlPlane : Bool) (d : JoinDeps) : Except String JoinTicket :=
  match d.dataKey with
  | .error msg => .error msg
  | .ok key =>
    match d.idFile with
    | .error msg => .error msg
    | .ok ids =>
      match d.joinToken with
      | .error msg => .error msg
      | .ok tok =>
        match d.kubeletCert with
        | .error msg => .error msg
        | .ok cert =>
          match (if isControlPlane then d.controlPlaneFiles else .ok []) with
          | .error msg => .error msg
          | .ok files =>
            .ok { stateDiskKey := key, ownerID := ids.1, clusterID := ids.2,
                  kubeletCert := cert, apiServerEndpoint := tok.apiServerEndpoint,
                  caCertHash := tok.caCertHash, token := tok.token,
                  controlPlaneFiles := files }

/-- Claim C8: `IssueJoinTicket` fetches control-plane certificate material
only when `isControlPlane` is true: a failing fetch makes every
control-plane call fail; a worker call never depends on that fetch (the
result is unchanged under any replacement of the fetch outcome), and a
worker ticket succeeds whenever the other four steps succeed even though
the fetch would have failed. -/
theorem issueJoinTicket_control_plane_step (d : JoinDeps) (e : String) (key : Bytes)
    (ids : Bytes × Bytes) (tok : JoinToken) (cert : Bytes)
    (cpf : Except String (List (String × Bytes))) :
    (d.controlPlaneFiles = .error e → isErr (IssueJoinTicket true d) = true) ∧
    IssueJoinTicket false d = IssueJoinTicket false { d with controlPlaneFiles := cpf } ∧
    (d.dataKey = .ok key → d.idFile = .ok ids → d.joinToken = .ok tok →
      d.kubeletCert = .ok cert →
      IssueJoinTicket false d =
        .ok { stateDiskKey := key, ownerID := ids.1, clusterID := ids.2,
              kubeletCert := cert, apiServerEndpoint := tok.apiServerEndpoint,
              caCertHash := tok.caCertHash, token := tok.token,
              controlPlaneFiles := [] }) := by
  refine ⟨?_, rfl, ?_⟩
  · intro hcpf
    obtain ⟨dk, idf, jt, kc, cp⟩ := d
    simp only at hcpf
    cases dk <;> cases idf <;> cases jt <;> cases kc <;>
      simp [IssueJoinTicket, hcpf, isErr]
  · intro h1 h2 h3 h4
    simp [IssueJoinTicket, h1, h2, h3, h4]

/-- Concrete instantiation of the C8 theorem: with the control-plane
certificate fetch failing and all other steps succeeding, the control-plane
call fails while the worker call succeeds. -/
theorem issueJoinTicket_control_plane_step_witness :
    isErr (IssueJoinTicket true
      { dataKey := .ok [1, 2, 3], idFile := .ok ([4, 5, 6], [7, 8, 9]),
        joinToken := .ok ⟨"192.0.2.1", "hash", "token"⟩, kubeletCert := .ok [4, 5, 6],
        controlPlaneFiles := .error "error" }) = true ∧
    IssueJoinTicket false
      { dataKey := .ok [1, 2, 3], idFile := .ok ([4, 5, 6], [7, 8, 9]),
        joinToken := .ok ⟨"192.0.2.1", "hash", "token"⟩, kubeletCert := .ok [4, 5, 6],
        controlPlaneFiles := .error "error" } =
      .ok { stateDiskKey := [1, 2, 3], ownerID := [4, 5, 6], clusterID := [7, 8, 9],
            kubeletCert := [4, 5, 6], apiServerEndpoint := "192.0.2.1",
            caCertHash := "hash", token := "token", controlPlaneFiles := [] } :=
  ⟨(issueJoinTicket_control_plane_step
      { dataKey := .ok [1, 2, 3], idFile := .ok ([4, 5, 6], [7, 8, 9]),
        joinToken := .ok ⟨"192.0.2.1", "hash", "token"⟩, kubeletCert := .ok [4, 5, 6],
        controlPlaneFiles := .error "error" } "error" [1, 2, 3] ([4, 5, 6], [7, 8, 9])
      ⟨"192.0.2.1", "hash", "token"⟩ [4, 5, 6] (.ok [])).1 rfl,
    (issueJoinTicket_control_plane_step
      { dataKey := .ok [1, 2, 3], idFile := .ok ([4, 5, 6], [7, 8, 9]),
        joinToken := .ok ⟨"192.0.2.1", "hash", "token"⟩, kubeletCert := .ok [4, 5, 6],
        controlPlaneFiles := .error "error" } "error" [1, 2, 3] ([4, 5, 6], [7, 8, 9])
      ⟨"192.0.2.1", "hash", "token"⟩ [4, 5, 6] (.ok [])).2.2 rfl rfl rfl rfl⟩

/- ## Key-custody backend configuration (kms/server/setup; claim C9) -/

/-- Modelled from the spec: `getConfig` (kms/server/setup/setup.go, not
under src/; only its tests are).  It extracts the values of the named query
parameters in order; a parameter that is missing from the query or has an
empty value is a configuration error.  As pinned by the package's tests, a
query parameter outside the requested set is never inspected. -/
def getConfig (query : List (String × String)) : List String → Except String (List String)
  | [] => .ok []
  | k :: rest =>
    match lookupKV query k with
    | none => .error ("missing value for key " ++ k)
    | some v =>
      if v = "" then .error ("missing value for key " ++ k)
      else
        match getConfig query rest with
        | .ok vs => .ok (v :: vs)
        | .error msg => .error msg

/-- A parsed configuration URI: scheme, host selecting the backend, and
query parameters. -/
structure ParsedURI where
  scheme : String
  host : String
  query : List (String × String)
deriving DecidableEq, Repr

inductive StoreBackend where
  | noStore
  | awsS3 (conf : List String)
  | azureBlob (conf : List String)
  | gcpStorage (conf : List String)
deriving DecidableEq, Repr

inductive KmsBackend where
  | clusterKMS
  | awsKMS (conf : List String)
  | azureKMS (conf : List String)
  | azureHSM (conf : List String)
  | gcpKMS (conf : List String)
deriving DecidableEq, Repr

/-- Modelled from the spec: `getStore` (kms/server/setup, not under src/).
The scheme must be `storage`, the host selects the wrapped-DEK store
backend, and each external backend reads its fixed named parameters through
`getConfig`; an unknown scheme or backend is a configuration error. -/
def getStore (uri : ParsedURI) : Except String StoreBackend :=
  if uri.scheme ≠ "storage" then .error "invalid storage URI"
  else
    match uri.host with
    | "no_store" => .ok .noStore
    | "aws" => (getConfig uri.query ["bucket"]).map .awsS3
    | "azure" => (getConfig uri.query ["container", "connectionString"]).map .azureBlob
    | "gcp" => (getConfig uri.query ["project", "bucket"]).map .gcpStorage
    | _ => .error "unknown storage type"

/-- Modelled from the spec: `getKMS` (kms/server/setup, not under src/).
The scheme must be `kms`, the host selects the KEK source backend, and each
external backend reads its fixed named parameters through `getConfig`. -/
def getKMS (uri : ParsedURI) : Except String KmsBackend :=
  if uri.scheme ≠ "kms" then .error "invalid KMS URI"
  else
    match uri.host with
    | "cluster-kms" => .ok .clusterKMS
    | "aws" => (getConfig uri.query ["keyPolicy"]).map .awsKMS
    | "azure" => (getConfig uri.query ["vaultName", "vaultType"]).map .azureKMS
    | "azure-hsm" => (getConfig uri.query ["vaultName"]).map .azureHSM
    | "gcp" =>
      (getConfig uri.query ["project", "location", "keyRing", "protectionLvl"]).map .gcpKMS
    | _ => .error "unknown KMS type"

theorem lookupKV_append_single {β : Type} (query : List (String × β)) (k ek : String)
    (ev : β) (hne : k ≠ ek) :
    lookupKV (query ++ [(ek, ev)]) k = lookupKV query k := by
  induction query with
  | nil =>
    show lookupKV [(ek, ev)] k = none
    simp [lookupKV, Ne.symm hne]
  | cons p rest ih =>
    obtain ⟨pk, pv⟩ := p
    by_cases hp : pk = k
    · simp [lookupKV, hp]
    · simp [lookupKV, hp, ih]

theorem getConfig_isErr_of_missing (query : List (String × String)) (keys : List String)
    (k : String) (hk : k ∈ keys)
    (hmiss : lookupKV query k = none ∨ lookupKV query k = some "") :
    isErr (getConfig query keys) = true := by
  induction keys with
  | nil => simp at hk
  | cons k0 rest ih =>
    rcases List.mem_cons.mp hk with hk0 | hkr
    · subst hk0
      rcases hmiss with hm | hm <;> simp [getConfig, hm, isErr]
    · unfold getConfig
      cases hq : lookupKV query k0 with
      | none => simp [isErr]
      | some v =>
        by_cases hv : v = ""
        · simp [hv, isErr]
        · have := ih hkr
          simp only [hv, if_neg hv]
          cases hg : getConfig query rest with
          | ok vs => rw [hg] at this; simp [isErr] at this
          | error msg => simp [isErr]

theorem getConfig_ignores_extra (query : List (String × String)) (keys : List String)
    (ek ev : String) (hek : ek ∉ keys) :
    getConfig (query ++ [(ek, ev)]) keys = getConfig query keys := by
  induction keys with
  | nil => rfl
  | cons k0 rest ih =>
    have hne : k0 ≠ ek := fun h => hek (h ▸ List.mem_cons_self k0 rest)
    have hr : ek ∉ rest := fun h => hek (List.mem_cons_of_mem k0 h)
    unfold getConfig
    rw [lookupKV_append_single query k0 ek ev hne, ih hr]

/-- Claim C9 counterexample: the query carries the unexpected parameter
`value` in addition to the requested `name` and `data`, yet configuration
parsing succeeds — an unexpected parameter is not a configuration error
(exactly the "less keys than capture groups" case the package's own test
expects to succeed). -/
theorem getConfig_unexpected_param_counterexample :
    getConfig [("name", "test-name"), ("data", "test-data"), ("value", "test-value")]
      ["name", "data"] = .ok ["test-name", "test-data"] := rfl

/-- Claim C9 (amended): configuration parsing fails at configuration time
for an unknown URI scheme, and a parameter of the fixed named set that is
missing from the query (or present with an empty value) is a configuration
error; a query parameter outside the requested named set is ignored rather
than rejected. -/
theorem setup_config_validation (uriS uriK : ParsedURI)
    (query : List (String × String)) (keys : List String) (k ek ev : String) :
    (uriS.scheme ≠ "storage" → isErr (getStore uriS) = true) ∧
    (uriK.scheme ≠ "kms" → isErr (getKMS uriK) = true) ∧
    (k ∈ keys → lookupKV query k = none → isErr (getConfig query keys) = true) ∧
    (k ∈ keys → lookupKV query k = some "" → isErr (getConfig query keys) = true) ∧
    (ek ∉ keys → getConfig (query ++ [(ek, ev)]) keys = getConfig query keys) := by
  refine ⟨?_, ?_, ?_, ?_, ?_⟩
  · intro h
    simp [getStore, h, isErr]
  · intro h
    simp [getKMS, h, isErr]
  · intro hk hm
    exact getConfig_isErr_of_missing query keys k hk (Or.inl hm)
  · intro hk hm
    exact getConfig_isErr_of_missing query keys k hk (Or.inr hm)
  · intro hek
    exact getConfig_ignores_extra query keys ek ev hek

/-- Concrete instantiation of the amended C9 theorem: a KMS URI handed to
the store parser fails, a missing `value` parameter fails, and appending an
unexpected parameter changes nothing. -/
theorem setup_config_validation_witness :
    isErr (getStore ⟨"kms", "cluster-kms", []⟩) = true ∧
    isErr (getKMS ⟨"storage", "no_store", []⟩) = true ∧
    isErr (getConfig [("name", "test-name"), ("data", "test-data")]
      ["name", "data", "value"]) = true ∧
    isErr (getConfig [("name", "test-name"), ("value", "")] ["name", "value"]) = true ∧
    getConfig ([("name", "test-name")] ++ [("extra", "x")]) ["name"] =
      getConfig [("name", "test-name")] ["name"] :=
  ⟨(setup_config_validation ⟨"kms", "cluster-kms", []⟩ ⟨"storage", "no_store", []⟩
      [] [] "" "" "").1 (by decide),
    (setup_config_validation ⟨"kms", "cluster-kms", []⟩ ⟨"storage", "no_store", []⟩
      [] [] "" "" "").2.1 (by decide),
    (setup_config_validation ⟨"kms", "cluster-kms", []⟩ ⟨"storage", "no_store", []⟩
      [("name", "test-name"), ("data", "test-data")] ["name", "data", "value"] "value"
      "" "").2.2.1 (by decide) (by decide),
    (setup_config_validation ⟨"kms", "cluster-kms", []⟩ ⟨"storage", "no_store", []⟩
      [("name", "test-name"), ("value", "")] ["name", "value"] "value" "" "").2.2.2.1
      (by decide) (by decide),
    (setup_config_validation ⟨"kms", "cluster-kms", []⟩ ⟨"storage", "no_store", []⟩
      [("name", "test-name")] ["name"] "" "extra" "x").2.2.2.2 (by decide)⟩

end Constellation
